import Mathlib

/-!
Verification development for the tax-code determination engine.

The definitions below are a shallow embedding of the repository's Python
sources (src/tools.py, src/masters/*.py, src/nodes.py, src/state.py,
src/tax_agent.py) into Lean:

* Python `str` becomes `String` (ASCII case conversion matches Python for the
  character data used by the engine);
* Python `float` values become `ℚ`; every numeric literal the engine
  manipulates (tax rates, confidences, thresholds) is an exact short decimal,
  for which rational arithmetic agrees with IEEE double arithmetic and with
  Python's `str`/`repr` rendering; float artefacts (inf/nan, rounding of
  non-decimal values) are outside the model;
* Python dicts with tuple keys become association lists;
* the LLM collaborator and the per-line exception boundary are external,
  non-deterministic effects and are modelled as explicit outcome parameters
  (`LLMOutcome`, `LineBehavior`);
* `try/except` around otherwise pure code is modelled by total functions,
  and the explicitly reachable failure branches (the LLM call, the line
  boundary) keep their handlers.
-/

/-! ## Character classes of the GSTIN regex (src/tools.py line 79)

The pattern is anchored and each class has width 1, so matching is a
positional check on a 15-character string. -/

/-- Class [0-9] of the pattern. -/
def isDigitChar (c : Char) : Bool := '0' ≤ c && c ≤ '9'

/-- Class [A-Z] of the pattern. -/
def isUpperAZ (c : Char) : Bool := 'A' ≤ c && c ≤ 'Z'

/-- Class [1-9A-Z] of the pattern (entity-number position: zero excluded). -/
def isEntityChar (c : Char) : Bool := ('1' ≤ c && c ≤ '9') || isUpperAZ c

/-- Class [0-9A-Z] of the pattern (final checksum position). -/
def isAlnumUpper (c : Char) : Bool := isDigitChar c || isUpperAZ c

/-- The anchored regex of src/tools.py line 79,
`[0-9]{2}[A-Z]{5}[0-9]{4}[A-Z]{1}[1-9A-Z]{1}Z[0-9A-Z]{1}`, as a positional
check: true exactly on 15-character strings whose characters fall in the
listed classes. -/
def gstinPattern : List Char → Bool
  | [c1, c2, c3, c4, c5, c6, c7, c8, c9, c10, c11, c12, c13, c14, c15] =>
      isDigitChar c1 && isDigitChar c2 &&
      isUpperAZ c3 && isUpperAZ c4 && isUpperAZ c5 && isUpperAZ c6 && isUpperAZ c7 &&
      isDigitChar c8 && isDigitChar c9 && isDigitChar c10 && isDigitChar c11 &&
      isUpperAZ c12 && isEntityChar c13 && c14 == 'Z' && isAlnumUpper c15
  | _ => false

/-! ## Union-territory state-code sets (src/masters/ *.py line 8) -/

def SAP_UNION_TERRITORIES : List String := ["04", "07", "25", "26", "31", "34", "35", "38"]

def ORACLE_UNION_TERRITORIES : List String := ["04", "07", "25", "26", "31", "34", "35", "38"]

def MS360_UNION_TERRITORIES : List String := ["04", "07", "25", "26", "31", "34", "35", "38"]

/-- Result record of `extract_state_code_from_gstin` (src/tools.py lines 28-33). -/
structure GSTINExtractResult where
  state_code : String
  is_valid : Bool
  is_union_territory : Bool
  error : Option String
deriving DecidableEq

/-- Embedding of `extract_state_code_from_gstin` (src/tools.py lines 52-118).
The Python guard `not gstin or len(gstin) != 15` is equivalent to the single
length test, since the empty string has length 0. The `except` arm is
unreachable for total string operations and is not modelled. -/
def extract_state_code_from_gstin (gstin : String) (erp_type : String) : GSTINExtractResult :=
  if gstin.length ≠ 15 then
    { state_code := "", is_valid := false, is_union_territory := false,
      error := some "GSTIN must be 15 characters" }
  else if gstinPattern gstin.data = false then
    { state_code := "", is_valid := false, is_union_territory := false,
      error := some "Invalid GSTIN format" }
  else
    let state_code := gstin.take 2
    let ut_set :=
      if erp_type = "ORACLE" then ORACLE_UNION_TERRITORIES
      else if erp_type = "MS_365" then MS360_UNION_TERRITORIES
      else SAP_UNION_TERRITORIES
    { state_code := state_code, is_valid := true,
      is_union_territory := ut_set.contains state_code, error := none }

/-- Result record of `determine_transaction_type` (src/tools.py lines 36-41). -/
structure TransactionTypeResult where
  transaction_type : String
  supplier_state : String
  buyer_state : String
  is_same_state : Bool
deriving DecidableEq

/-- Embedding of `determine_transaction_type` (src/tools.py lines 121-167). -/
def determine_transaction_type (supplier_gstin buyer_gstin erp_type : String) :
    TransactionTypeResult :=
  let supplier_result := extract_state_code_from_gstin supplier_gstin erp_type
  let buyer_result := extract_state_code_from_gstin buyer_gstin erp_type
  if supplier_result.is_valid = false ∨ buyer_result.is_valid = false then
    { transaction_type := "UNKNOWN", supplier_state := supplier_result.state_code,
      buyer_state := buyer_result.state_code, is_same_state := false }
  else
    let is_same := supplier_result.state_code = buyer_result.state_code
    { transaction_type := if is_same then "INTRA" else "INTER",
      supplier_state := supplier_result.state_code,
      buyer_state := buyer_result.state_code,
      is_same_state := is_same }

/-! ## Python numeric-string helpers

`float(s)` is modelled on decimal literals with an optional exponent; `inf`,
`nan` and digit-group underscores are outside the model (no tax entry uses
them). `str(f)` for a float that is an exact short decimal is the shortest
decimal rendering with at least one fractional digit, which the model
reproduces for non-negative exact decimals. -/

/-- Rational addition written through `mkRat` so the kernel can evaluate it
(the library's `Rat.add` is deliberately irreducible); `ratAdd_eq` below
proves it is the field addition. -/
def ratAdd (a b : ℚ) : ℚ := mkRat (a.num * b.den + b.num * a.den) (a.den * b.den)

/-- Rational multiplication through `mkRat`; `ratMul_eq` below proves it is
the field multiplication. -/
def ratMul (a b : ℚ) : ℚ := mkRat (a.num * b.num) (a.den * b.den)

/-- Rational subtraction through `mkRat`; `ratSub_eq` below proves it is the
field subtraction. -/
def ratSub (a b : ℚ) : ℚ := mkRat (a.num * b.den - b.num * a.den) (a.den * b.den)

/-- Rational division through `mkRat`; `ratDiv_eq` below proves it is the
field division (with division by zero yielding zero, as in the library). -/
def ratDiv (a b : ℚ) : ℚ := mkRat (b.num.sign * a.num * b.den) (a.den * b.num.natAbs)

/-- Integer powers of ten as rationals, through `mkRat`. -/
def pow10 : ℤ → ℚ
  | .ofNat n => mkRat ((10 : ℤ) ^ n) 1
  | .negSucc n => mkRat 1 ((10 : ℕ) ^ (n + 1))

/-- Numeric value of a digit string (most significant first). -/
def digitsToNat (l : List Char) : ℕ :=
  l.foldl (fun a c => a * 10 + (c.toNat - '0'.toNat)) 0

/-- A non-empty all-digit string, as a natural number. -/
def parseNatDigits (l : List Char) : Option ℤ :=
  if l ≠ [] ∧ l.all isDigitChar then some (digitsToNat l) else none

/-- An optionally signed digit string (the exponent of a float literal). -/
def parseSignedDigits : List Char → Option ℤ
  | '+' :: rest => parseNatDigits rest
  | '-' :: rest => (parseNatDigits rest).map (fun n => -n)
  | rest => parseNatDigits rest

/-- The exponent tail of a float literal: empty, or `e`/`E` then a signed
digit string. -/
def parseExpTail : List Char → Option ℤ
  | [] => some 0
  | 'e' :: rest => parseSignedDigits rest
  | 'E' :: rest => parseSignedDigits rest
  | _ => none

/-- An unsigned float literal: `digits [. digits] [exp]` or `. digits [exp]`,
with at least one digit overall. -/
def parseUnsignedFloat (l : List Char) : Option ℚ :=
  let ip := l.takeWhile isDigitChar
  let rest := l.dropWhile isDigitChar
  match rest with
  | '.' :: rest2 =>
      let fp := rest2.takeWhile isDigitChar
      let rest3 := rest2.dropWhile isDigitChar
      if ip = [] ∧ fp = [] then none
      else
        (parseExpTail rest3).map (fun e =>
          ratMul (ratAdd (mkRat (digitsToNat ip) 1) (mkRat (digitsToNat fp) (10 ^ fp.length)))
            (pow10 e))
  | _ =>
      if ip = [] then none
      else (parseExpTail rest).map (fun e => ratMul (mkRat (digitsToNat ip) 1) (pow10 e))

/-- Model of Python `float(s)` on decimal literals (value as an exact rational). -/
def pyFloat (s : String) : Option ℚ :=
  match s.data with
  | '+' :: rest => parseUnsignedFloat rest
  | '-' :: rest => (parseUnsignedFloat rest).map Neg.neg
  | l => parseUnsignedFloat l

/-- Model of Python `str.strip()` (whitespace at both ends). -/
def pyStrip (s : String) : String :=
  String.mk (((s.data.dropWhile Char.isWhitespace).reverse.dropWhile Char.isWhitespace).reverse)

/-- Fractional digits of `num/den` (`num < den`), most significant first; the
fuel bounds the expansion and is never exhausted on the engine's exact short
decimals. -/
def fracDigitsAux : ℕ → ℕ → ℕ → List Char
  | 0, _, _ => []
  | _ + 1, 0, _ => []
  | fuel + 1, num, den =>
      Char.ofNat ('0'.toNat + num * 10 / den) :: fracDigitsAux fuel (num * 10 % den) den

/-- Model of Python `str(f)` for a non-negative float that is an exact short
decimal: integer part, a dot, then the fractional digits (or a single zero,
as Python prints `5.0` for an integral float). The integer and fractional
parts are read off the reduced numerator and denominator. -/
def pyFloatStr (q : ℚ) : String :=
  let n : ℕ := q.num.toNat / q.den
  let rem : ℕ := q.num.toNat % q.den
  let digits := fracDigitsAux 30 rem q.den
  (toString n) ++ "." ++ (if digits.isEmpty then "0" else String.mk digits)

/-- Model of Python `str.rstrip(c)` for a single character. -/
def rstripChar (c : Char) (s : String) : String :=
  String.mk ((s.data.reverse.dropWhile (fun a => a == c)).reverse)

/-! ## calculate_total_tax_rate (src/tools.py lines 170-194) -/

/-- One loop step's parse: `float(rate_str.replace('%', '').strip())`.
`replace` removes every percent sign; a parse failure raises, which aborts
the whole aggregation. -/
def parseRateEntry (rate_str : String) : Option ℚ :=
  pyFloat (pyStrip (String.mk (rate_str.data.filter (fun c => c ≠ '%'))))

/-- The aggregation loop: adds entries left to right, `none` as soon as one
entry fails to parse (the raised exception skips the rest of the loop). -/
def sumRates : List (String × String) → ℚ → Option ℚ
  | [], acc => some acc
  | (_, rate_str) :: rest, acc =>
      match parseRateEntry rate_str with
      | none => none
      | some r => sumRates rest (ratAdd acc r)

/-- Embedding of `calculate_total_tax_rate`: the summed rate, or 0.0 when any
entry fails to parse (the `except` arm returns 0.0). -/
def calculate_total_tax_rate (tax_list : List (String × String)) : ℚ :=
  (sumRates tax_list 0).getD 0

/-! ## check_rcm_applicability (src/tools.py lines 197-244) -/

/-- ASCII upper-casing, matching Python `str.upper()` on the engine's data. -/
def pyUpper (s : String) : String := String.mk (s.data.map Char.toUpper)

/-- ASCII lower-casing, matching Python `str.lower()` on the engine's data. -/
def pyLower (s : String) : String := String.mk (s.data.map Char.toLower)

/-- Whether `needle` begins `hay` (character-wise). -/
def leadMatch : List Char → List Char → Bool
  | [], _ => true
  | _ :: _, [] => false
  | a :: as, b :: bs => a == b && leadMatch as bs

/-- Whether `needle` occurs contiguously in `hay`: the Python `in` substring
test. -/
def containsSub (needle : List Char) : List Char → Bool
  | [] => needle.isEmpty
  | c :: t => leadMatch needle (c :: t) || containsSub needle t

/-- The unregistered-vendor sentinel list of src/tools.py line 226. -/
def RCM_SENTINELS : List String := ["URP", "UNREGISTERED", "NA"]

/-- The notified-service keyword list of src/tools.py line 232. -/
def rcm_keywords : List String :=
  ["reverse charge", "rcm", "gta", "legal", "advocate", "arbitration"]

/-- Embedding of `check_rcm_applicability` (src/tools.py lines 197-244).
`supplier_gstin` is `Optional[str]`; Python's falsy test on it is true for
`None` and for the empty string. -/
def check_rcm_applicability (supplier_gstin : Option String)
    (supplier_country item_description : String) : Bool :=
  if supplier_country ≠ "IN" then true
  else
    match supplier_gstin with
    | none => true
    | some g =>
      if g = "" ∨ RCM_SENTINELS.contains (pyUpper g) then true
      else if rcm_keywords.any (fun k => containsSub k.data (pyLower item_description).data) then
        true
      else false

/-! ## Tax-code master tables (src/masters/sap_master.py, oracle_master.py,
ms_360_master.py) -/

/-- CanonicalKey: (rate string, transaction type, charge type, credit type,
state type). -/
abbrev TaxKey := String × String × String × String × String

def SAP_TAX_CODE_MASTER : List (TaxKey × String) := [
  (("0.25", "INTRA", "REGULAR", "CREDIT", "STATE"), "3A"),
  (("3", "INTRA", "REGULAR", "CREDIT", "STATE"), "3B"),
  (("5", "INTRA", "REGULAR", "CREDIT", "STATE"), "3C"),
  (("12", "INTRA", "REGULAR", "CREDIT", "STATE"), "3X"),
  (("18", "INTRA", "REGULAR", "CREDIT", "STATE"), "3Z"),
  (("28", "INTRA", "REGULAR", "CREDIT", "STATE"), "3Y"),
  (("0.25", "INTRA", "REGULAR", "CREDIT", "UT"), "3A_UT"),
  (("3", "INTRA", "REGULAR", "CREDIT", "UT"), "3B_UT"),
  (("5", "INTRA", "REGULAR", "CREDIT", "UT"), "3C_UT"),
  (("12", "INTRA", "REGULAR", "CREDIT", "UT"), "3X_UT"),
  (("18", "INTRA", "REGULAR", "CREDIT", "UT"), "3Z_UT"),
  (("28", "INTRA", "REGULAR", "CREDIT", "UT"), "3Y_UT"),
  (("0.25", "INTER", "REGULAR", "CREDIT", "STATE"), "1A"),
  (("0.25", "INTER", "REGULAR", "CREDIT", "UT"), "1A"),
  (("3", "INTER", "REGULAR", "CREDIT", "STATE"), "1B"),
  (("3", "INTER", "REGULAR", "CREDIT", "UT"), "1B"),
  (("5", "INTER", "REGULAR", "CREDIT", "STATE"), "1C"),
  (("5", "INTER", "REGULAR", "CREDIT", "UT"), "1C"),
  (("12", "INTER", "REGULAR", "CREDIT", "STATE"), "1X"),
  (("12", "INTER", "REGULAR", "CREDIT", "UT"), "1X"),
  (("18", "INTER", "REGULAR", "CREDIT", "STATE"), "1Z"),
  (("18", "INTER", "REGULAR", "CREDIT", "UT"), "1Z"),
  (("28", "INTER", "REGULAR", "CREDIT", "STATE"), "1Y"),
  (("28", "INTER", "REGULAR", "CREDIT", "UT"), "1Y"),
  (("5", "INTRA", "REGULAR", "NON_CREDIT", "STATE"), "3C_NC"),
  (("5", "INTRA", "REGULAR", "NON_CREDIT", "UT"), "3C_UT_NC"),
  (("12", "INTRA", "REGULAR", "NON_CREDIT", "STATE"), "3X_NC"),
  (("12", "INTRA", "REGULAR", "NON_CREDIT", "UT"), "3X_UT_NC"),
  (("18", "INTRA", "REGULAR", "NON_CREDIT", "STATE"), "3Z_NC"),
  (("18", "INTRA", "REGULAR", "NON_CREDIT", "UT"), "3Z_UT_NC"),
  (("28", "INTRA", "REGULAR", "NON_CREDIT", "STATE"), "3Y_NC"),
  (("28", "INTRA", "REGULAR", "NON_CREDIT", "UT"), "3Y_UT_NC"),
  (("5", "INTER", "REGULAR", "NON_CREDIT", "STATE"), "1C_NC"),
  (("5", "INTER", "REGULAR", "NON_CREDIT", "UT"), "1C_NC"),
  (("12", "INTER", "REGULAR", "NON_CREDIT", "STATE"), "1X_NC"),
  (("12", "INTER", "REGULAR", "NON_CREDIT", "UT"), "1X_NC"),
  (("18", "INTER", "REGULAR", "NON_CREDIT", "STATE"), "1Z_NC"),
  (("18", "INTER", "REGULAR", "NON_CREDIT", "UT"), "1Z_NC"),
  (("28", "INTER", "REGULAR", "NON_CREDIT", "STATE"), "1Y_NC"),
  (("28", "INTER", "REGULAR", "NON_CREDIT", "UT"), "1Y_NC"),
  (("5", "INTRA", "RCM", "CREDIT", "STATE"), "R3"),
  (("5", "INTRA", "RCM", "CREDIT", "UT"), "R3_UT"),
  (("12", "INTRA", "RCM", "CREDIT", "STATE"), "R6"),
  (("12", "INTRA", "RCM", "CREDIT", "UT"), "R6_UT"),
  (("18", "INTRA", "RCM", "CREDIT", "STATE"), "R9"),
  (("18", "INTRA", "RCM", "CREDIT", "UT"), "R9_UT"),
  (("28", "INTRA", "RCM", "CREDIT", "STATE"), "R12"),
  (("28", "INTRA", "RCM", "CREDIT", "UT"), "R12_UT"),
  (("5", "INTER", "RCM", "CREDIT", "STATE"), "R1"),
  (("5", "INTER", "RCM", "CREDIT", "UT"), "R1"),
  (("12", "INTER", "RCM", "CREDIT", "STATE"), "R4"),
  (("12", "INTER", "RCM", "CREDIT", "UT"), "R4"),
  (("18", "INTER", "RCM", "CREDIT", "STATE"), "R7"),
  (("18", "INTER", "RCM", "CREDIT", "UT"), "R7"),
  (("28", "INTER", "RCM", "CREDIT", "STATE"), "R10"),
  (("28", "INTER", "RCM", "CREDIT", "UT"), "R10"),
  (("5", "INTRA", "RCM", "NON_CREDIT", "STATE"), "R3_NC"),
  (("5", "INTRA", "RCM", "NON_CREDIT", "UT"), "R3_UT_NC"),
  (("12", "INTRA", "RCM", "NON_CREDIT", "STATE"), "R6_NC"),
  (("12", "INTRA", "RCM", "NON_CREDIT", "UT"), "R6_UT_NC"),
  (("18", "INTRA", "RCM", "NON_CREDIT", "STATE"), "R9_NC"),
  (("18", "INTRA", "RCM", "NON_CREDIT", "UT"), "R9_UT_NC"),
  (("28", "INTRA", "RCM", "NON_CREDIT", "STATE"), "R12_NC"),
  (("28", "INTRA", "RCM", "NON_CREDIT", "UT"), "R12_UT_NC"),
  (("5", "INTER", "RCM", "NON_CREDIT", "STATE"), "R1_NC"),
  (("5", "INTER", "RCM", "NON_CREDIT", "UT"), "R1_NC"),
  (("12", "INTER", "RCM", "NON_CREDIT", "STATE"), "R4_NC"),
  (("12", "INTER", "RCM", "NON_CREDIT", "UT"), "R4_NC"),
  (("18", "INTER", "RCM", "NON_CREDIT", "STATE"), "R7_NC"),
  (("18", "INTER", "RCM", "NON_CREDIT", "UT"), "R7_NC"),
  (("28", "INTER", "RCM", "NON_CREDIT", "STATE"), "R10_NC"),
  (("28", "INTER", "RCM", "NON_CREDIT", "UT"), "R10_NC"),
  (("0", "INTRA", "REGULAR", "CREDIT", "STATE"), "Z0"),
  (("0", "INTRA", "REGULAR", "CREDIT", "UT"), "Z0"),
  (("0", "INTER", "REGULAR", "CREDIT", "STATE"), "Z0"),
  (("0", "INTER", "REGULAR", "CREDIT", "UT"), "Z0")]

def SAP_TAX_CODE_DESCRIPTIONS : List (String × String) := [
  ("3A", "CGST-SGST 0.25% Input"),
  ("3B", "CGST-SGST 3% Input"),
  ("3C", "CGST-SGST 5% Input"),
  ("3X", "CGST-SGST 12% Input"),
  ("3Z", "CGST-SGST 18% Input"),
  ("3Y", "CGST-SGST 28% Input"),
  ("3A_UT", "CGST-UGST 0.25% Input"),
  ("3B_UT", "CGST-UGST 3% Input"),
  ("3C_UT", "CGST-UGST 5% Input"),
  ("3X_UT", "CGST-UGST 12% Input"),
  ("3Z_UT", "CGST-UGST 18% Input"),
  ("3Y_UT", "CGST-UGST 28% Input"),
  ("1A", "IGST 0.25% Input"),
  ("1B", "IGST 3% Input"),
  ("1C", "IGST 5% Input"),
  ("1X", "IGST 12% Input"),
  ("1Z", "IGST 18% Input"),
  ("1Y", "IGST 28% Input"),
  ("3C_NC", "CGST-SGST 5% Non-Credit"),
  ("3X_NC", "CGST-SGST 12% Non-Credit"),
  ("3Z_NC", "CGST-SGST 18% Non-Credit"),
  ("3Y_NC", "CGST-SGST 28% Non-Credit"),
  ("R3", "RCM CGST-SGST 5% Input"),
  ("R6", "RCM CGST-SGST 12% Input"),
  ("R9", "RCM CGST-SGST 18% Input"),
  ("R12", "RCM CGST-SGST 28% Input"),
  ("R1", "RCM IGST 5% Input"),
  ("R4", "RCM IGST 12% Input"),
  ("R7", "RCM IGST 18% Input"),
  ("R10", "RCM IGST 28% Input"),
  ("Z0", "Input Tax Exempt / Zero Rated")]

def ORACLE_TAX_CODE_MASTER : List (TaxKey × String) := [
  (("5", "INTRA", "REGULAR", "CREDIT", "STATE"), "ORA_CGST_SGST_5"),
  (("12", "INTRA", "REGULAR", "CREDIT", "STATE"), "ORA_CGST_SGST_12"),
  (("18", "INTRA", "REGULAR", "CREDIT", "STATE"), "ORA_CGST_SGST_18"),
  (("28", "INTRA", "REGULAR", "CREDIT", "STATE"), "ORA_CGST_SGST_28"),
  (("5", "INTER", "REGULAR", "CREDIT", "STATE"), "ORA_IGST_5"),
  (("12", "INTER", "REGULAR", "CREDIT", "STATE"), "ORA_IGST_12"),
  (("18", "INTER", "REGULAR", "CREDIT", "STATE"), "ORA_IGST_18"),
  (("28", "INTER", "REGULAR", "CREDIT", "STATE"), "ORA_IGST_28")]

def ORACLE_TAX_CODE_DESCRIPTIONS : List (String × String) := [
  ("ORA_CGST_SGST_5", "Oracle CGST-SGST 5% Input"),
  ("ORA_CGST_SGST_12", "Oracle CGST-SGST 12% Input"),
  ("ORA_CGST_SGST_18", "Oracle CGST-SGST 18% Input"),
  ("ORA_CGST_SGST_28", "Oracle CGST-SGST 28% Input"),
  ("ORA_IGST_5", "Oracle IGST 5% Input"),
  ("ORA_IGST_12", "Oracle IGST 12% Input"),
  ("ORA_IGST_18", "Oracle IGST 18% Input"),
  ("ORA_IGST_28", "Oracle IGST 28% Input")]

def MS360_TAX_CODE_MASTER : List (TaxKey × String) := [
  (("5", "INTRA", "REGULAR", "CREDIT", "STATE"), "MS_IN_CGST_SGST_5"),
  (("12", "INTRA", "REGULAR", "CREDIT", "STATE"), "MS_IN_CGST_SGST_12"),
  (("18", "INTRA", "REGULAR", "CREDIT", "STATE"), "MS_IN_CGST_SGST_18"),
  (("28", "INTRA", "REGULAR", "CREDIT", "STATE"), "MS_IN_CGST_SGST_28"),
  (("5", "INTER", "REGULAR", "CREDIT", "STATE"), "MS_IN_IGST_5"),
  (("12", "INTER", "REGULAR", "CREDIT", "STATE"), "MS_IN_IGST_12"),
  (("18", "INTER", "REGULAR", "CREDIT", "STATE"), "MS_IN_IGST_18"),
  (("28", "INTER", "REGULAR", "CREDIT", "STATE"), "MS_IN_IGST_28")]

def MS360_TAX_CODE_DESCRIPTIONS : List (String × String) := [
  ("MS_IN_CGST_SGST_5", "MS 365 CGST-SGST 5% Input"),
  ("MS_IN_CGST_SGST_12", "MS 365 CGST-SGST 12% Input"),
  ("MS_IN_CGST_SGST_18", "MS 365 CGST-SGST 18% Input"),
  ("MS_IN_CGST_SGST_28", "MS 365 CGST-SGST 28% Input"),
  ("MS_IN_IGST_5", "MS 365 IGST 5% Input"),
  ("MS_IN_IGST_12", "MS 365 IGST 12% Input"),
  ("MS_IN_IGST_18", "MS 365 IGST 18% Input"),
  ("MS_IN_IGST_28", "MS 365 IGST 28% Input")]

/-! ## lookup_tax_code (src/tools.py lines 247-325) -/

/-- Result record of `lookup_tax_code` (src/tools.py lines 44-49). -/
structure TaxCodeLookupResult where
  tax_code : String
  tax_description : String
  confidence : ℚ
  found : Bool
deriving DecidableEq

/-- The rate normalization of src/tools.py line 272:
`str(tax_rate).rstrip('0').rstrip('.')`. -/
def normalizeRate (tax_rate : ℚ) : String :=
  rstripChar '.' (rstripChar '0' (pyFloatStr tax_rate))

/-- Embedding of `lookup_tax_code` (src/tools.py lines 247-325). The Python
truthiness test `if tax_code:` on `dict.get`'s result is false for `None` and
for the empty string. -/
def lookup_tax_code (tax_rate : ℚ)
    (transaction_type charge_type credit_type state_type erp_type : String) :
    TaxCodeLookupResult :=
  let rate_str := normalizeRate tax_rate
  let lookup_key : TaxKey := (rate_str, transaction_type, charge_type, credit_type, state_type)
  let tax_master :=
    if erp_type = "ORACLE" then ORACLE_TAX_CODE_MASTER
    else if erp_type = "MS_365" then MS360_TAX_CODE_MASTER
    else SAP_TAX_CODE_MASTER
  let desc_master :=
    if erp_type = "ORACLE" then ORACLE_TAX_CODE_DESCRIPTIONS
    else if erp_type = "MS_365" then MS360_TAX_CODE_DESCRIPTIONS
    else SAP_TAX_CODE_DESCRIPTIONS
  let tax_code := (tax_master.lookup lookup_key).getD ""
  if tax_code ≠ "" then
    { tax_code := tax_code,
      tax_description :=
        (desc_master.lookup tax_code).getD ("Tax Code " ++ tax_code ++ " - " ++ rate_str ++ "%"),
      confidence := mkRat 95 100, found := true }
  else
    { tax_code := "MANUAL_REVIEW",
      tax_description :=
        "No mapping found: rate=" ++ rate_str ++ "%, type=" ++ transaction_type ++
          ", charge=" ++ charge_type,
      confidence := 0, found := false }

/-! ## Workflow state (src/state.py) and node updates (src/nodes.py)

A LangGraph node returns a partial update dict; the graph merges it into the
state: plain keys overwrite, while `messages` and `errors` carry an
`operator.add` reducer and so append. `StateUpdate`/`applyUpdate` model that
merge discipline; a node is the merge of its update. -/

/-- Embedding of `TaxDeterminationState` (src/state.py lines 10-46). -/
structure TaxDeterminationState where
  item_description : String
  hsn : ℤ
  supplier_name : String
  supplier_gstin : String
  supplier_country : String
  buyer_gstin : String
  buyer_country : String
  tax : List (String × String)
  erp_type : String
  supplier_state_code : String
  buyer_state_code : String
  is_union_territory : Bool
  transaction_type : String
  total_tax_rate : ℚ
  is_rcm : Bool
  is_credit_eligible : Bool
  tax_code : String
  tax_description : String
  confidence : ℚ
  total_prompt_tokens : ℕ
  total_completion_tokens : ℕ
  total_reasoning_tokens : ℕ
  total_tokens : ℕ
  messages : List String
  errors : List String
deriving DecidableEq

/-- A node's partial update: `none` means the key is absent from the returned
dict; `messages`/`errors` always append. -/
structure StateUpdate where
  supplier_state_code : Option String := none
  buyer_state_code : Option String := none
  is_union_territory : Option Bool := none
  transaction_type : Option String := none
  total_tax_rate : Option ℚ := none
  is_rcm : Option Bool := none
  is_credit_eligible : Option Bool := none
  tax_code : Option String := none
  tax_description : Option String := none
  confidence : Option ℚ := none
  total_prompt_tokens : Option ℕ := none
  total_completion_tokens : Option ℕ := none
  total_reasoning_tokens : Option ℕ := none
  total_tokens : Option ℕ := none
  messages : List String := []
  errors : List String := []
deriving DecidableEq

/-- The LangGraph merge of one node's update into the state. -/
def applyUpdate (s : TaxDeterminationState) (u : StateUpdate) : TaxDeterminationState :=
  { s with
    supplier_state_code := u.supplier_state_code.getD s.supplier_state_code,
    buyer_state_code := u.buyer_state_code.getD s.buyer_state_code,
    is_union_territory := u.is_union_territory.getD s.is_union_territory,
    transaction_type := u.transaction_type.getD s.transaction_type,
    total_tax_rate := u.total_tax_rate.getD s.total_tax_rate,
    is_rcm := u.is_rcm.getD s.is_rcm,
    is_credit_eligible := u.is_credit_eligible.getD s.is_credit_eligible,
    tax_code := u.tax_code.getD s.tax_code,
    tax_description := u.tax_description.getD s.tax_description,
    confidence := u.confidence.getD s.confidence,
    total_prompt_tokens := u.total_prompt_tokens.getD s.total_prompt_tokens,
    total_completion_tokens := u.total_completion_tokens.getD s.total_completion_tokens,
    total_reasoning_tokens := u.total_reasoning_tokens.getD s.total_reasoning_tokens,
    total_tokens := u.total_tokens.getD s.total_tokens,
    messages := s.messages ++ u.messages,
    errors := s.errors ++ u.errors }

/-- Update returned by `preprocessing_node` (src/nodes.py lines 30-112), key
by key in source order; `messages`/`errors` list the appends in the order the
source makes them. -/
def preprocessingUpdate (s : TaxDeterminationState) : StateUpdate :=
  let erp_type := s.erp_type
  let supplier_result := extract_state_code_from_gstin s.supplier_gstin erp_type
  let errs1 :=
    if supplier_result.is_valid = false then
      ["Invalid supplier GSTIN: " ++ supplier_result.error.getD "None"] else []
  let msgs1 := ["Supplier state: " ++ supplier_result.state_code]
  let buyer_result := extract_state_code_from_gstin s.buyer_gstin erp_type
  let errs2 :=
    if buyer_result.is_valid = false then
      ["Invalid buyer GSTIN: " ++ buyer_result.error.getD "None"] else []
  let msgs2 := ["Buyer state: " ++ buyer_result.state_code]
  let msgs3 :=
    if supplier_result.is_union_territory then
      ["State " ++ supplier_result.state_code ++ " is a Union Territory"] else []
  let txn_result := determine_transaction_type s.supplier_gstin s.buyer_gstin erp_type
  let msgs4 := ["Transaction type: " ++ txn_result.transaction_type ++ "state"]
  let total_rate := calculate_total_tax_rate s.tax
  let msgs5 := ["Total tax rate: " ++ pyFloatStr total_rate ++ "%"]
  let is_rcm := check_rcm_applicability (some s.supplier_gstin) s.supplier_country
    s.item_description
  let msgs6 := if is_rcm then ["RCM applicable"] else []
  { supplier_state_code := some supplier_result.state_code,
    buyer_state_code := some buyer_result.state_code,
    is_union_territory := some supplier_result.is_union_territory,
    transaction_type := some txn_result.transaction_type,
    total_tax_rate := some total_rate,
    is_rcm := some is_rcm,
    is_credit_eligible := some true,
    messages := msgs1 ++ msgs2 ++ msgs3 ++ msgs4 ++ msgs5 ++ msgs6,
    errors := errs1 ++ errs2 }

/-- The structured output of the generative fallback (src/nodes.py lines
23-27). -/
structure LLMResponse where
  tax_code : String
  reasoning : String
  confidence : ℚ
deriving DecidableEq

/-- Provider token-usage metadata, absent fields already defaulted to 0
(src/nodes.py lines 207-215). -/
structure TokenUsage where
  prompt_tokens : ℕ
  completion_tokens : ℕ
  reasoning_tokens : ℕ
deriving DecidableEq

/-- What the fallback call would do if invoked: return a structured response
plus usage metadata, or raise. -/
inductive LLMOutcome where
  | ok (resp : LLMResponse) (usage : TokenUsage)
  | err (msg : String)
deriving DecidableEq

/-- Update returned by `tax_determination_node` (src/nodes.py lines 115-260):
direct lookup, then on miss the fallback call, whose failure yields the
manual-review sentinel; token counters accumulate in every branch. -/
def taxDeterminationUpdate (llm : LLMOutcome) (s : TaxDeterminationState) : StateUpdate :=
  let erp_type := s.erp_type
  let state_type := if s.is_union_territory then "UT" else "STATE"
  let charge_type := if s.is_rcm then "RCM" else "REGULAR"
  let credit_type := if s.is_credit_eligible then "CREDIT" else "NON_CREDIT"
  let lookup_result := lookup_tax_code s.total_tax_rate s.transaction_type charge_type
    credit_type state_type erp_type
  let core : StateUpdate :=
    if lookup_result.found then
      { tax_code := some lookup_result.tax_code,
        tax_description := some lookup_result.tax_description,
        confidence := some lookup_result.confidence,
        messages := ["Tax code found in master: " ++ lookup_result.tax_code] }
    else
      match llm with
      | .ok resp _ =>
          { tax_code := some resp.tax_code,
            tax_description := some resp.reasoning,
            confidence := some resp.confidence,
            messages := ["No direct match - using LLM for determination",
              "LLM determined tax code: " ++ resp.tax_code] }
      | .err msg =>
          { tax_code := some "MANUAL_REVIEW_REQUIRED",
            tax_description := some "Error in automated determination",
            confidence := some 0,
            messages := ["No direct match - using LLM for determination"],
            errors := ["LLM error: " ++ msg] }
  let used : TokenUsage :=
    match lookup_result.found, llm with
    | false, .ok _ usage => usage
    | _, _ => { prompt_tokens := 0, completion_tokens := 0, reasoning_tokens := 0 }
  { core with
    total_prompt_tokens := some (s.total_prompt_tokens + used.prompt_tokens),
    total_completion_tokens := some (s.total_completion_tokens + used.completion_tokens),
    total_reasoning_tokens := some (s.total_reasoning_tokens + used.reasoning_tokens),
    total_tokens := some (s.total_prompt_tokens + used.prompt_tokens +
      (s.total_completion_tokens + used.completion_tokens) +
      (s.total_reasoning_tokens + used.reasoning_tokens)) }

/-- The sentinel list of src/nodes.py line 290. -/
def VALIDATION_SENTINELS : List String := ["MANUAL_REVIEW_REQUIRED", "ERROR", ""]

/-- Update returned by `validation_node` (src/nodes.py lines 263-322): purely
advisory messages and errors, no result field in the returned dict. The
threshold literal 0.6 is written `mkRat 6 10` so the kernel can evaluate the
comparison. -/
def validationUpdate (s : TaxDeterminationState) : StateUpdate :=
  let m1 := if s.confidence < mkRat 6 10 then ["Low confidence: " ++ pyFloatStr s.confidence] else []
  let e1 := if s.confidence < mkRat 6 10 then ["Confidence below threshold (0.6)"] else []
  let tax_code := s.tax_code
  let m2 := if tax_code ∈ VALIDATION_SENTINELS then ["Tax code requires manual review"] else []
  let e2 := if tax_code ∈ VALIDATION_SENTINELS then ["Tax code not automatically determined"] else []
  let m3 :=
    if s.transaction_type = "INTER" ∧ tax_code.startsWith "1" then
      ["IGST tax code matches interstate transaction"]
    else if s.transaction_type = "INTRA" ∧
        (tax_code.startsWith "3" ∨ tax_code.startsWith "R") then
      ["CGST-SGST tax code matches intrastate transaction"]
    else []
  let errs := e1 ++ e2
  let m4 := if errs = [] then ["All validations passed"] else []
  { messages := m1 ++ m2 ++ m3 ++ m4, errors := errs }

def preprocessing_node (s : TaxDeterminationState) : TaxDeterminationState :=
  applyUpdate s (preprocessingUpdate s)

def tax_determination_node (llm : LLMOutcome) (s : TaxDeterminationState) :
    TaxDeterminationState :=
  applyUpdate s (taxDeterminationUpdate llm s)

def validation_node (s : TaxDeterminationState) : TaxDeterminationState :=
  applyUpdate s (validationUpdate s)

/-- The compiled three-stage workflow (src/graph.py lines 16-49):
preprocessing, then tax determination, then validation. -/
def runPipeline (llm : LLMOutcome) (s : TaxDeterminationState) : TaxDeterminationState :=
  validation_node (tax_determination_node llm (preprocessing_node s))

/-! ## Batch interface (src/tax_agent.py) -/

/-- Embedding of `TaggingRequestLineItem` (src/tax_agent.py lines 14-27). -/
structure TaggingRequestLineItem where
  item_description : String
  hsn : ℤ
  supplier_name : String
  po_number : String
  quantity : ℤ
  unit_price : ℚ
  total : ℚ
  supplier_gstin : String
  supplier_country : String
  buyer_gstin : String
  buyer_country : String
  tax : List (String × String)
deriving DecidableEq

/-- Embedding of `TaxTaggingResult` (src/tax_agent.py lines 36-48). -/
structure TaxTaggingResult where
  line_index : ℕ
  item_description : String
  tax_code : String
  tax_description : String
  confidence : ℚ
  total_prompt_tokens : ℕ
  total_completion_tokens : ℕ
  total_reasoning_tokens : ℕ
  total_tokens : ℕ
  messages : List String
  errors : List String
deriving DecidableEq

/-- Embedding of the batch summary dict (src/tax_agent.py lines 182-192).
`successful` is an integer: the source computes it by subtraction and it can
go negative. `average_confidence` is Python `round(x, 3)` modelled on exact
rationals (half-to-even); float representation error is outside the model and
no theorem below rests on this field. -/
structure BatchSummary where
  total_lines : ℕ
  successful : ℤ
  manual_review : ℕ
  errors : ℕ
  average_confidence : ℚ
  total_prompt_tokens : ℕ
  total_completion_tokens : ℕ
  total_reasoning_tokens : ℕ
  total_tokens : ℕ
deriving DecidableEq

/-- Embedding of `TaxTaggingResponse` (src/tax_agent.py lines 51-54). -/
structure TaxTaggingResponse where
  results : List TaxTaggingResult
  summary : BatchSummary
deriving DecidableEq

/-- What one line's run would do: execute the graph (with the fallback
collaborator behaving as `llm` if reached), or raise at the line boundary
with the given message. -/
inductive LineBehavior where
  | run (llm : LLMOutcome)
  | exn (msg : String)
deriving DecidableEq

/-- The initial state built per line (src/tax_agent.py lines 96-122). -/
def initialState (line : TaggingRequestLineItem) (erp_type : String) : TaxDeterminationState :=
  { item_description := line.item_description,
    hsn := line.hsn,
    supplier_name := line.supplier_name,
    supplier_gstin := line.supplier_gstin,
    supplier_country := line.supplier_country,
    buyer_gstin := line.buyer_gstin,
    buyer_country := line.buyer_country,
    tax := line.tax,
    erp_type := erp_type,
    supplier_state_code := "",
    buyer_state_code := "",
    is_union_territory := false,
    transaction_type := "",
    total_tax_rate := 0,
    is_rcm := false,
    is_credit_eligible := true,
    tax_code := "",
    tax_description := "",
    confidence := 0,
    total_prompt_tokens := 0,
    total_completion_tokens := 0,
    total_reasoning_tokens := 0,
    total_tokens := 0,
    messages := [],
    errors := [] }

/-- One line of the batch loop (src/tax_agent.py lines 124-177): the graph's
final state extracted into a result, or the per-line exception handler's
error result. -/
def processLine (erp_type : String) (idx : ℕ) (line : TaggingRequestLineItem)
    (beh : LineBehavior) : TaxTaggingResult :=
  match beh with
  | .run llm =>
      let final_state := runPipeline llm (initialState line erp_type)
      { line_index := idx,
        item_description := line.item_description,
        tax_code := final_state.tax_code,
        tax_description := final_state.tax_description,
        confidence := final_state.confidence,
        total_prompt_tokens := final_state.total_prompt_tokens,
        total_completion_tokens := final_state.total_completion_tokens,
        total_reasoning_tokens := final_state.total_reasoning_tokens,
        total_tokens := final_state.total_tokens,
        messages := final_state.messages,
        errors := final_state.errors }
  | .exn msg =>
      { line_index := idx,
        item_description := line.item_description,
        tax_code := "ERROR",
        tax_description := "Processing error: " ++ msg,
        confidence := 0,
        total_prompt_tokens := 0,
        total_completion_tokens := 0,
        total_reasoning_tokens := 0,
        total_tokens := 0,
        messages := [],
        errors := [msg] }

/-- The running accumulators of the batch loop (src/tax_agent.py lines 81-90). -/
structure BatchAcc where
  results : List TaxTaggingResult
  total_confidence : ℚ
  manual_review_count : ℕ
  error_count : ℕ
  aggregate_prompt_tokens : ℕ
  aggregate_completion_tokens : ℕ
  aggregate_reasoning_tokens : ℕ
  aggregate_total_tokens : ℕ
deriving DecidableEq

/-- The batch loop (src/tax_agent.py lines 92-177). In the normal path the
manual-review test and the non-empty-errors test are two independent `if`
statements; in the exception path only the error counter moves (the error
result's confidence and token counters are all zero). -/
def processBatch (erp_type : String)
    (lines : List (TaggingRequestLineItem × LineBehavior)) : BatchAcc :=
  lines.enum.foldl
    (fun acc p =>
      let result := processLine erp_type p.1 p.2.1 p.2.2
      match p.2.2 with
      | .run _ =>
          { results := acc.results ++ [result],
            total_confidence := acc.total_confidence + result.confidence,
            manual_review_count := acc.manual_review_count +
              (if result.tax_code = "MANUAL_REVIEW_REQUIRED" then 1 else 0),
            error_count := acc.error_count + (if 0 < result.errors.length then 1 else 0),
            aggregate_prompt_tokens := acc.aggregate_prompt_tokens + result.total_prompt_tokens,
            aggregate_completion_tokens :=
              acc.aggregate_completion_tokens + result.total_completion_tokens,
            aggregate_reasoning_tokens :=
              acc.aggregate_reasoning_tokens + result.total_reasoning_tokens,
            aggregate_total_tokens := acc.aggregate_total_tokens + result.total_tokens }
      | .exn _ =>
          { results := acc.results ++ [result],
            total_confidence := acc.total_confidence,
            manual_review_count := acc.manual_review_count,
            error_count := acc.error_count + 1,
            aggregate_prompt_tokens := acc.aggregate_prompt_tokens,
            aggregate_completion_tokens := acc.aggregate_completion_tokens,
            aggregate_reasoning_tokens := acc.aggregate_reasoning_tokens,
            aggregate_total_tokens := acc.aggregate_total_tokens })
    { results := [], total_confidence := 0, manual_review_count := 0, error_count := 0,
      aggregate_prompt_tokens := 0, aggregate_completion_tokens := 0,
      aggregate_reasoning_tokens := 0, aggregate_total_tokens := 0 }

/-- Python `round(q, 3)` on an exact rational: half-to-even at the third
decimal. -/
def pyRound3 (q : ℚ) : ℚ :=
  let scaled := ratMul q (mkRat 1000 1)
  let f := Rat.floor scaled
  let fr := ratSub scaled (mkRat f 1)
  let r : ℤ :=
    if fr < mkRat 1 2 then f
    else if mkRat 1 2 < fr then f + 1
    else if f % 2 = 0 then f else f + 1
  mkRat r 1000

/-- Embedding of `TaxAgent.process_tagging_request` (src/tax_agent.py lines
65-199): runs every line, then builds the summary. `successful` is
`total_lines - manual_review_count - error_count` as the source computes it. -/
def process_tagging_request (erp_type : String)
    (lines : List (TaggingRequestLineItem × LineBehavior)) : TaxTaggingResponse :=
  let acc := processBatch erp_type lines
  let n := lines.length
  let avg_confidence : ℚ := if 0 < n then ratDiv acc.total_confidence (mkRat n 1) else 0
  { results := acc.results,
    summary :=
      { total_lines := n,
        successful := (n : ℤ) - (acc.manual_review_count : ℤ) - (acc.error_count : ℤ),
        manual_review := acc.manual_review_count,
        errors := acc.error_count,
        average_confidence := pyRound3 avg_confidence,
        total_prompt_tokens := acc.aggregate_prompt_tokens,
        total_completion_tokens := acc.aggregate_completion_tokens,
        total_reasoning_tokens := acc.aggregate_reasoning_tokens,
        total_tokens := acc.aggregate_total_tokens } }

/-! ## Spec-side definitions and concrete fixtures used by the statements -/

/-- The identifier shape as the spec's sentence states it: 2 digits, 5
letters, 4 digits, 1 letter, 1 alphanumeric character, the literal checksum
letter, 1 alphanumeric character — with digits read as [0-9], letters as
[A-Z] and alphanumeric as [0-9A-Z]. Written from the spec's words, to be
compared with the source's `gstinPattern`. -/
def specGstinShape : List Char → Bool
  | [c1, c2, c3, c4, c5, c6, c7, c8, c9, c10, c11, c12, c13, c14, c15] =>
      isDigitChar c1 && isDigitChar c2 &&
      isUpperAZ c3 && isUpperAZ c4 && isUpperAZ c5 && isUpperAZ c6 && isUpperAZ c7 &&
      isDigitChar c8 && isDigitChar c9 && isDigitChar c10 && isDigitChar c11 &&
      isUpperAZ c12 && isAlnumUpper c13 && c14 == 'Z' && isAlnumUpper c15
  | _ => false

/-- An absent supplier identifier in the evaluator's sense: `None`, or the
empty string (both falsy in the source's guard), or a member of the
unregistered sentinel set compared case-insensitively. -/
def unregisteredIdent : Option String → Bool
  | none => true
  | some s => s == "" || RCM_SENTINELS.contains (pyUpper s)

/-- Whether the description contains a reverse-charge keyword as a
case-insensitive substring. -/
def hasRcmKeyword (d : String) : Bool :=
  rcm_keywords.any (fun k => containsSub k.data (pyLower d).data)

/-- The supported rate set of the resolver's contract (src/tools.py line
260); 0.25 is written `mkRat 1 4` for kernel evaluation, and the theorem on
rate normalization states the equality with the decimal literals. -/
def supportedRates : List ℚ := [0, mkRat 1 4, 3, 5, 12, 18, 28]

/-- The rate components of the primary master's keys. -/
def sapRateComponents : List String := SAP_TAX_CODE_MASTER.map (fun e => e.1.1)

/-- The canonical lookup key the pipeline's determination stage passes to the
resolver for a given line: built from the preprocessed state exactly as
src/nodes.py lines 140-157 and src/tools.py lines 272-275 build it. -/
def pipelineLookupKey (erp_type : String) (line : TaggingRequestLineItem) : TaxKey :=
  let s := preprocessing_node (initialState line erp_type)
  (normalizeRate s.total_tax_rate, s.transaction_type,
   if s.is_rcm then "RCM" else "REGULAR",
   if s.is_credit_eligible then "CREDIT" else "NON_CREDIT",
   if s.is_union_territory then "UT" else "STATE")

/-- A concrete line item whose 7% rate has no master entry, so the resolver
escalates to the fallback; the identifiers are well-formed, domestic,
registered, same-state, and the description carries no reverse-charge
keyword. -/
def sampleMissLine : TaggingRequestLineItem :=
  { item_description := "Steel widgets",
    hsn := 7325,
    supplier_name := "Acme Industries",
    po_number := "PO-1",
    quantity := 1,
    unit_price := 100,
    total := 107,
    supplier_gstin := "27ABCDE1234F1Z5",
    supplier_country := "IN",
    buyer_gstin := "27ABCDE1234F1Z5",
    buyer_country := "IN",
    tax := [("IGST", "7%")] }

/-! ## Agreement of the kernel-evaluable rational helpers with the field
operations -/

theorem ratAdd_eq (a b : ℚ) : ratAdd a b = a + b := by
  have ha : (a.den : ℚ) ≠ 0 := Nat.cast_ne_zero.mpr a.den_nz
  have hb : (b.den : ℚ) ≠ 0 := Nat.cast_ne_zero.mpr b.den_nz
  conv_rhs => rw [← Rat.num_div_den a, ← Rat.num_div_den b]
  rw [ratAdd, Rat.mkRat_eq_div]
  push_cast
  field_simp

theorem ratMul_eq (a b : ℚ) : ratMul a b = a * b := by
  have ha : (a.den : ℚ) ≠ 0 := Nat.cast_ne_zero.mpr a.den_nz
  have hb : (b.den : ℚ) ≠ 0 := Nat.cast_ne_zero.mpr b.den_nz
  conv_rhs => rw [← Rat.num_div_den a, ← Rat.num_div_den b]
  rw [ratMul, Rat.mkRat_eq_div]
  push_cast
  field_simp

theorem ratSub_eq (a b : ℚ) : ratSub a b = a - b := by
  have ha : (a.den : ℚ) ≠ 0 := Nat.cast_ne_zero.mpr a.den_nz
  have hb : (b.den : ℚ) ≠ 0 := Nat.cast_ne_zero.mpr b.den_nz
  conv_rhs => rw [← Rat.num_div_den a, ← Rat.num_div_den b]
  rw [ratSub, Rat.mkRat_eq_div]
  push_cast
  field_simp
  ring

theorem pow10_eq (e : ℤ) : pow10 e = (10 : ℚ) ^ e := by
  cases e with
  | ofNat n =>
      rw [pow10, Rat.mkRat_eq_div]
      push_cast
      simp [zpow_natCast]
  | negSucc n =>
      rw [pow10, Rat.mkRat_eq_div, zpow_negSucc]
      push_cast
      simp

theorem ratDiv_eq (a b : ℚ) : ratDiv a b = a / b := by
  rcases eq_or_ne b 0 with rfl | hb
  · simp [ratDiv, Rat.mkRat_eq_div]
  · have hnum : b.num ≠ 0 := Rat.num_ne_zero.mpr hb
    have ha : (a.den : ℚ) ≠ 0 := Nat.cast_ne_zero.mpr a.den_nz
    have hbd : (b.den : ℚ) ≠ 0 := Nat.cast_ne_zero.mpr b.den_nz
    have hbq : (b.num : ℚ) ≠ 0 := Int.cast_ne_zero.mpr hnum
    rw [ratDiv, Rat.mkRat_eq_div]
    rcases lt_or_gt_of_ne hnum with h | h
    · have hs : b.num.sign = -1 := Int.sign_eq_neg_one_iff_neg.mpr h
      have habsQ : |(b.num : ℚ)| = -(b.num : ℚ) :=
        abs_of_neg (by exact_mod_cast h)
      have hnaQ : ((b.num.natAbs : ℕ) : ℚ) = -(b.num : ℚ) := by
        rw [Int.cast_natAbs, abs_of_neg h]
        push_cast
        ring
      rw [hs]
      push_cast [hnaQ, habsQ]
      conv_rhs => rw [← Rat.num_div_den a, ← Rat.num_div_den b]
      field_simp
    · have hs : b.num.sign = 1 := Int.sign_eq_one_iff_pos.mpr h
      have habsQ : |(b.num : ℚ)| = (b.num : ℚ) :=
        abs_of_pos (by exact_mod_cast h)
      have hnaQ : ((b.num.natAbs : ℕ) : ℚ) = (b.num : ℚ) := by
        rw [Int.cast_natAbs, abs_of_pos h]
      rw [hs]
      push_cast [hnaQ, habsQ]
      conv_rhs => rw [← Rat.num_div_den a, ← Rat.num_div_den b]
      field_simp

/-! ## Structural helper lemmas -/

/-- Validation's update carries no result keys, so the merged state keeps the
determination stage's tax code. -/
theorem validation_node_keeps_code (s : TaxDeterminationState) :
    (validation_node s).tax_code = s.tax_code := rfl

/-- When the state's code is one of the sentinels, validation appends the
manual-determination error, so the merged error list is non-empty. -/
theorem validation_sentinel_error (s : TaxDeterminationState)
    (h : s.tax_code ∈ VALIDATION_SENTINELS) : (validation_node s).errors ≠ [] := by
  simp [validation_node, applyUpdate, validationUpdate, h]

/-- Preprocessing unconditionally sets the credit-eligibility flag. -/
theorem preprocessing_credit_true (s : TaxDeterminationState) :
    (preprocessing_node s).is_credit_eligible = true := rfl

/-- The aggregation loop yields `none` whenever some entry fails to parse. -/
theorem sumRates_none (l : List (String × String)) (acc : ℚ)
    (h : ∃ p ∈ l, parseRateEntry p.2 = none) : sumRates l acc = none := by
  induction l generalizing acc with
  | nil => simp at h
  | cons a t ih =>
      obtain ⟨nm, rs⟩ := a
      rcases h with ⟨p, hp, hnone⟩
      rcases List.mem_cons.mp hp with h1 | h2
      · subst h1
        simp only at hnone
        simp [sumRates, hnone]
      · cases hm : parseRateEntry rs with
        | none => simp [sumRates, hm]
        | some r =>
            simp only [sumRates, hm]
            exact ih _ ⟨p, h2, hnone⟩

/-! ## The claims -/

/-- C2 (counterexample): the identifier 27ABCDE1234F0Z5 matches the
positional shape as the claim words it — position 13 holds the alphanumeric
character 0 — yet validation rejects it, because the source pattern's entity
class is [1-9A-Z], which excludes zero. -/
theorem gstin_entity_zero_rejected :
    specGstinShape "27ABCDE1234F0Z5".data = true ∧
    (extract_state_code_from_gstin "27ABCDE1234F0Z5" "SAP_ECC").is_valid = false := by
  decide

/-- C2 (amended): for every 15-character identifier matching the source's
positional shape — 2 digits, 5 uppercase letters, 4 digits, 1 uppercase
letter, 1 digit-1-to-9-or-uppercase-letter, the literal Z, 1
digit-or-uppercase-letter — validation succeeds and the region code is the
first two characters of the input. -/
theorem wellformed_gstin_valid (s erp : String)
    (h : s.length = 15 ∧ gstinPattern s.data = true) :
    (extract_state_code_from_gstin s erp).is_valid = true ∧
    (extract_state_code_from_gstin s erp).state_code = s.take 2 := by
  obtain ⟨h1, h2⟩ := h
  constructor <;> simp [extract_state_code_from_gstin, h1, h2]

/-- C2 (witness): the amended theorem applied at 27ABCDE1234F1Z5. -/
theorem wellformed_gstin_valid_witness :
    ("27ABCDE1234F1Z5".length = 15 ∧ gstinPattern "27ABCDE1234F1Z5".data = true) ∧
    ((extract_state_code_from_gstin "27ABCDE1234F1Z5" "SAP_ECC").is_valid = true ∧
     (extract_state_code_from_gstin "27ABCDE1234F1Z5" "SAP_ECC").state_code =
       "27ABCDE1234F1Z5".take 2) :=
  ⟨⟨by decide, by decide⟩,
    wellformed_gstin_valid "27ABCDE1234F1Z5" "SAP_ECC" ⟨by decide, by decide⟩⟩

/-- C3: on the primary system, rate 5 with (INTRA, REGULAR, CREDIT, STATE)
is a hit mapped to 3C at the fixed confidence 0.95, and rate 7 with the same
dimensions is a miss (found = false) with confidence 0.0. -/
theorem lookup_hit_and_miss :
    lookup_tax_code 5 "INTRA" "REGULAR" "CREDIT" "STATE" "SAP_ECC" =
      { tax_code := "3C", tax_description := "CGST-SGST 5% Input",
        confidence := mkRat 95 100, found := true } ∧
    lookup_tax_code 7 "INTRA" "REGULAR" "CREDIT" "STATE" "SAP_ECC" =
      { tax_code := "MANUAL_REVIEW",
        tax_description := "No mapping found: rate=7%, type=INTRA, charge=REGULAR",
        confidence := 0, found := false } ∧
    mkRat 95 100 = (0.95 : ℚ) := by
  refine ⟨by decide, by decide, ?_⟩
  rw [Rat.mkRat_eq_div]
  norm_num

/-- C4: the reverse-charge evaluator is the fixed-priority short-circuit
chain — foreign supplier country, else absent-or-sentinel identifier
(case-insensitive), else a case-insensitive keyword substring of the
description, else false. -/
theorem rcm_priority_chain (g : Option String) (c d : String) :
    check_rcm_applicability g c d = true ↔
      (c ≠ "IN" ∨ unregisteredIdent g = true ∨ hasRcmKeyword d = true) := by
  cases g with
  | none =>
      by_cases hc : c = "IN" <;>
        simp [check_rcm_applicability, unregisteredIdent, hc]
  | some s =>
      by_cases hc : c = "IN" <;>
      by_cases h1 : s = "" <;>
      by_cases h2 : RCM_SENTINELS.contains (pyUpper s) = true <;>
      by_cases h3 : hasRcmKeyword d = true <;>
        simp_all [check_rcm_applicability, unregisteredIdent, hasRcmKeyword, hc, h1, h2, h3]

/-- C5: the aggregator sums CGST 9% and SGST 9% to 18.0, returns 0.0 on the
empty list, and fails atomically: any list containing an unparseable entry
aggregates to 0.0 with no partial sum. -/
theorem rate_aggregation_atomic (l : List (String × String))
    (h : ∃ p ∈ l, parseRateEntry p.2 = none) :
    calculate_total_tax_rate l = 0 ∧
    calculate_total_tax_rate [("CGST", "9%"), ("SGST", "9%")] = 18 ∧
    calculate_total_tax_rate [] = 0 := by
  refine ⟨?_, by decide, by decide⟩
  rw [calculate_total_tax_rate, sumRates_none l 0 h]
  rfl

/-- C5 (witness): the theorem applied to a list whose single entry fails to
parse. -/
theorem rate_aggregation_atomic_witness :
    (∃ p ∈ [("GST", "abc%")], parseRateEntry p.2 = none) ∧
    (calculate_total_tax_rate [("GST", "abc%")] = 0 ∧
     calculate_total_tax_rate [("CGST", "9%"), ("SGST", "9%")] = 18 ∧
     calculate_total_tax_rate [] = 0) :=
  ⟨by decide, rate_aggregation_atomic [("GST", "abc%")] (by decide)⟩

/-- C6: the rate normalization `str(rate).rstrip('0').rstrip('.')` maps the
supported rate set 0, 0.25, 3, 5, 12, 18, 28 to seven distinct canonical
strings with no trailing zeros or decimal point, each of which appears as
the rate component of a primary master key. -/
theorem rate_normalization_injective :
    supportedRates = [0, 0.25, 3, 5, 12, 18, 28] ∧
    supportedRates.map normalizeRate = ["0", "0.25", "3", "5", "12", "18", "28"] ∧
    (supportedRates.map normalizeRate).Nodup ∧
    ∀ r ∈ supportedRates.map normalizeRate, r ∈ sapRateComponents := by
  refine ⟨?_, by decide, by decide, by decide⟩
  have h14 : mkRat 1 4 = (0.25 : ℚ) := by
    rw [Rat.mkRat_eq_div]
    norm_num
  simp [supportedRates, h14]

/-- C7: for every line result the batch interface produces — pipeline runs
with any fallback outcome, and the line-boundary exception path — a final
code equal to the manual-review sentinel, the error sentinel or the empty
string comes with a non-empty error list. -/
theorem sentinel_code_has_errors (erp : String) (idx : ℕ)
    (line : TaggingRequestLineItem) (beh : LineBehavior)
    (h : (processLine erp idx line beh).tax_code ∈ VALIDATION_SENTINELS) :
    (processLine erp idx line beh).errors ≠ [] := by
  cases beh with
  | exn msg => simp [processLine]
  | run llm =>
      have hmem :
          (tax_determination_node llm (preprocessing_node (initialState line erp))).tax_code ∈
            VALIDATION_SENTINELS := by
        have h2 := h
        simp only [processLine, runPipeline] at h2
        rwa [validation_node_keeps_code] at h2
      have h3 :=
        validation_sentinel_error
          (tax_determination_node llm (preprocessing_node (initialState line erp))) hmem
      simpa [processLine, runPipeline] using h3

/-- C7 (witness): the theorem applied to the concrete fallback-failed
pipeline run on the 7% line. -/
theorem sentinel_code_has_errors_witness :
    ((processLine "SAP_ECC" 0 sampleMissLine (.run (.err "llm down"))).tax_code ∈
      VALIDATION_SENTINELS) ∧
    (processLine "SAP_ECC" 0 sampleMissLine (.run (.err "llm down"))).errors ≠ [] :=
  ⟨by decide,
    sentinel_code_has_errors "SAP_ECC" 0 sampleMissLine (.run (.err "llm down")) (by decide)⟩

/-- C8: every malformed identifier — wrong length, or right length with a
positional-shape violation — yields an invalid result with an empty region
code and a non-null error message that distinguishes length failures from
format failures; the embedding is total, so nothing is raised. -/
theorem malformed_gstin_invalid (s erp : String)
    (h : ¬ (s.length = 15 ∧ gstinPattern s.data = true)) :
    (extract_state_code_from_gstin s erp).is_valid = false ∧
    (extract_state_code_from_gstin s erp).state_code = "" ∧
    (extract_state_code_from_gstin s erp).error =
      some (if s.length = 15 then "Invalid GSTIN format" else "GSTIN must be 15 characters") ∧
    "Invalid GSTIN format" ≠ "GSTIN must be 15 characters" := by
  by_cases h1 : s.length = 15
  · have h2 : gstinPattern s.data = false := by
      cases hb : gstinPattern s.data with
      | false => rfl
      | true => exact absurd ⟨h1, hb⟩ h
    refine ⟨?_, ?_, ?_, by decide⟩ <;> simp [extract_state_code_from_gstin, h1, h2]
  · refine ⟨?_, ?_, ?_, by decide⟩ <;> simp [extract_state_code_from_gstin, h1]

/-- C8 (witness): the theorem applied at the 3-character identifier FOO. -/
theorem malformed_gstin_invalid_witness :
    (¬ (("FOO" : String).length = 15 ∧ gstinPattern ("FOO" : String).data = true)) ∧
    ((extract_state_code_from_gstin "FOO" "SAP_ECC").is_valid = false ∧
     (extract_state_code_from_gstin "FOO" "SAP_ECC").state_code = "" ∧
     (extract_state_code_from_gstin "FOO" "SAP_ECC").error =
       some (if ("FOO" : String).length = 15 then "Invalid GSTIN format"
         else "GSTIN must be 15 characters") ∧
     "Invalid GSTIN format" ≠ "GSTIN must be 15 characters") :=
  ⟨by decide, malformed_gstin_invalid "FOO" "SAP_ECC" (by decide)⟩

/-- C9: the validation stage never alters the determination result: for
every state, the merged update keeps tax_code, tax_description and
confidence unchanged, and only appends to the ordered messages and errors
lists. -/
theorem validation_frame (s : TaxDeterminationState) :
    (validation_node s).tax_code = s.tax_code ∧
    (validation_node s).tax_description = s.tax_description ∧
    (validation_node s).confidence = s.confidence ∧
    (∃ ms, (validation_node s).messages = s.messages ++ ms) ∧
    (∃ es, (validation_node s).errors = s.errors ++ es) :=
  ⟨rfl, rfl, rfl, ⟨_, rfl⟩, ⟨_, rfl⟩⟩

/-- C10: preprocessing unconditionally sets the credit-eligibility flag, the
pipeline's canonical lookup key therefore always carries the CREDIT credit
category, and no NON_CREDIT master entry can be the key the pipeline looks
up. -/
theorem credit_type_always_credit (erp : String) (line : TaggingRequestLineItem)
    (s : TaxDeterminationState) :
    (preprocessing_node s).is_credit_eligible = true ∧
    (pipelineLookupKey erp line).2.2.2.1 = "CREDIT" ∧
    ∀ e ∈ SAP_TAX_CODE_MASTER, e.1.2.2.2.1 = "NON_CREDIT" →
      e.1 ≠ pipelineLookupKey erp line := by
  have hk : (pipelineLookupKey erp line).2.2.2.1 = "CREDIT" := by
    simp [pipelineLookupKey, preprocessing_credit_true]
  refine ⟨preprocessing_credit_true s, hk, ?_⟩
  intro e he hnc heq
  have h4 := congrArg (fun k : TaxKey => k.2.2.2.1) heq
  simp only at h4
  rw [hnc, hk] at h4
  exact absurd h4 (by decide)

/-- C1 (counterexample): a one-line batch whose line ends as fallback-failed
(code MANUAL_REVIEW_REQUIRED, non-empty errors) is counted in BOTH the
manual-review and the error buckets — the two counters are independent ifs —
so manual review does not take precedence and `successful` goes to -1. -/
theorem summary_double_counts_review_line :
    (process_tagging_request "SAP_ECC"
      [(sampleMissLine, .run (.err "llm down"))]).summary.total_lines = 1 ∧
    (process_tagging_request "SAP_ECC"
      [(sampleMissLine, .run (.err "llm down"))]).summary.manual_review = 1 ∧
    (process_tagging_request "SAP_ECC"
      [(sampleMissLine, .run (.err "llm down"))]).summary.errors = 1 ∧
    (process_tagging_request "SAP_ECC"
      [(sampleMissLine, .run (.err "llm down"))]).summary.successful = -1 ∧
    (processLine "SAP_ECC" 0 sampleMissLine (.run (.err "llm down"))).tax_code =
      "MANUAL_REVIEW_REQUIRED" ∧
    (processLine "SAP_ECC" 0 sampleMissLine (.run (.err "llm down"))).errors ≠ [] := by
  refine ⟨by decide, by decide, by decide, by decide, by decide, by decide⟩

/-- C1 (amended): for every batch and any mixture of outcomes, successful +
manual_review + errors = total_lines holds as an integer identity, because
the source computes successful as the difference (it can be negative; a
manual-review line with non-empty errors is counted in both other buckets). -/
theorem summary_sum_identity (erp_type : String)
    (lines : List (TaggingRequestLineItem × LineBehavior)) :
    (process_tagging_request erp_type lines).summary.successful +
      ((process_tagging_request erp_type lines).summary.manual_review : ℤ) +
      ((process_tagging_request erp_type lines).summary.errors : ℤ) =
      ((process_tagging_request erp_type lines).summary.total_lines : ℤ) := by
  simp [process_tagging_request]
  ring
